import Mathlib

/-!
Verification of the protocol logic of `blutil.py`, a command-line tool for
programming BL-600 "smartBASIC" devices over a serial AT-command link.

The development shallowly embeds the pure logic of the tool:

* `classify`      — the response classification performed by `BLDevice.writecmd`
                    (blutil.py lines 55-69);
* `readLoop`      — the byte-accumulation loop of `writecmd` (lines 55-58);
* `formatRun`     — the failure behaviour of `BLDevice.format` (lines 183-191);
* `chunks` / `hexRow` / `uploadCmds`
                  — the command trace issued by `BLDevice.upload` (lines 135-151)
                    and the `chunks` generator (lines 226-231);
* `runEvents`     — the messages printed by `BLDevice.run` after the bounded
                    direct read (lines 153-170);
* `get_devicename`— the remote-name normalisation (lines 234-238);
* `findDirective` / `do_include`
                  — the include preprocessor `BLDevice.do_include`
                    (lines 193-216), with the regular expression
                    `^#include\s+"(.*)"$` (MULTILINE) modelled exactly.

Bytes are modelled as natural numbers; byte strings as `List Nat`; Python `str`
values as `List Char`.  Python decoding (`str(b, "ascii")`, `bytes.decode()`)
raises on bytes outside the ASCII range; the model represents that outcome with
an explicit `decodeFail` result, and the theorems about decoded payloads are
quantified over ASCII byte sequences, matching the spec's fixed ASCII wire
format.
-/

/-- The success terminator `b"00\r"` of the AT protocol (`'0' = 48`, `'\r' = 13`). -/
def succTerm : List Nat := [48, 48, 13]

/-- The error marker `b"\n01\t"` (`'\n' = 10`, `'0' = 48`, `'1' = 49`, `'\t' = 9`). -/
def errMarker : List Nat := [10, 48, 49, 9]

/-- Python `bytes.endswith`: `l` ends with the byte sequence `s`. -/
def endsWith (l s : List Nat) : Bool :=
  decide (l.drop (l.length - s.length) = s)

/-- The Python slice `l[:-n]`: everything but the last `n` elements. -/
def dropLastN {α : Type} (l : List α) (n : Nat) : List α :=
  l.take (l.length - n)

/-- The Python slice `l[-n:]`: the last `n` elements. -/
def lastN {α : Type} (l : List α) (n : Nat) : List α :=
  l.drop (l.length - n)

/-- ASCII bytes for which Python's `str.isspace` (and hence `str.strip`) is
true: `\t \n \v \f \r`, the separators `\x1c`-`\x1f`, and space. -/
def isSpaceByte (b : Nat) : Bool :=
  ([9, 10, 11, 12, 13, 28, 29, 30, 31, 32] : List Nat).contains b

/-- Python `str.strip()` on an ASCII byte string: drop whitespace from both ends. -/
def pyStrip (l : List Nat) : List Nat :=
  ((l.dropWhile isSpaceByte).reverse.dropWhile isSpaceByte).reverse

/-- True when every byte is ASCII, so Python's `str(·, "ascii")` and
`bytes.decode()` succeed and are the identity on the byte values. -/
def asciiOnly (l : List Nat) : Bool :=
  l.all (fun b => decide (b < 128))

/-- Classification outcomes of a `writecmd` response (spec: Success /
NoResponse / DeviceError / Malformed; `decodeFail` models Python's
`UnicodeDecodeError` on non-ASCII bytes). -/
inductive Resp where
  | success (payload : List Nat)
  | noResponse
  | deviceError (code : List Nat)
  | malformed (raw : List Nat)
  | decodeFail (raw : List Nat)
  deriving DecidableEq

/-- Response classification of `BLDevice.writecmd` (blutil.py lines 59-69):

* `response.endswith(b"00\r")` → `str(response, "ascii")[:-3].strip()` returned;
* empty response → "Got no response" error;
* `len(response) > 4 and response[0:4] == b'\n01\t'` →
  device error with code `str(response[4:].decode())[:-1]`;
* otherwise → "unexpected/error response".
-/
def classify (response : List Nat) : Resp :=
  if endsWith response succTerm then
    if asciiOnly response then Resp.success (pyStrip (dropLastN response 3))
    else Resp.decodeFail response
  else if response.length = 0 then
    Resp.noResponse
  else if 4 < response.length ∧ response.take 4 = errMarker then
    if asciiOnly (response.drop 4) then Resp.deviceError (dropLastN (response.drop 4) 1)
    else Resp.decodeFail response
  else
    Resp.malformed response

/-- The accumulation loop of `writecmd` (lines 55-58): starting from the bytes
already accumulated in `acc`, keep reading single bytes from the remaining
`stream` while the buffer does not end with `b"00\r"`.  An exhausted stream
models the timeout elapsing. -/
def readLoop (acc : List Nat) : List Nat → List Nat
  | [] => acc
  | b :: rest => if endsWith acc succTerm then acc else readLoop (acc ++ [b]) rest

/-- The failure behaviour of `BLDevice.format` (blutil.py lines 183-191).
`format` issues, in order: `writecmd('Z', timeout=5)` (expects a response),
`writecmd('')` (expects a response), `writecmd('&F 1', expect_response=False)`
(writes only — reads nothing, so it has no failure avenue), a 0.2s sleep and a
1024-byte discard read (cannot fail), and finally the re-probe `writecmd('')`
(expects a response).  `r1`, `r2`, `r3` are the byte buffers accumulated for
the three response-expecting commands; the result is `none` on success and
`some e` for the first non-Success classification, which `writecmd` raises. -/
def formatRun (r1 r2 r3 : List Nat) : Option Resp :=
  match classify r1 with
  | Resp.success _ =>
    match classify r2 with
    | Resp.success _ =>
      match classify r3 with
      | Resp.success _ => none
      | e => some e
    | e => some e
  | e => some e

/-- The `chunks` generator (blutil.py lines 226-231): repeatedly read `n`
bytes from the remaining file contents `l`, stopping on an empty read (which
also happens immediately when `n = 0`, since `f.read(0)` returns `b''`). -/
def chunks (l : List Nat) (n : Nat) : List (List Nat) :=
  if h : n = 0 ∨ l = [] then []
  else l.take n :: chunks (l.drop n) n
termination_by l.length
decreasing_by
  rw [List.length_drop]
  push_neg at h
  have hl : 0 < l.length := List.length_pos.mpr h.2
  omega

/-- One hex digit of `"%02x"`: `0`-`9` then lowercase `a`-`f`
(`'0' = 48`, `'a' = 97 = 87 + 10`). -/
def hexDigit (n : Nat) : Char :=
  if n < 10 then Char.ofNat (48 + n) else Char.ofNat (87 + n)

/-- Python `"%02x" % b` for a byte `b < 256`: exactly two lowercase hex digits. -/
def hexByte (b : Nat) : List Char :=
  [hexDigit (b / 16), hexDigit (b % 16)]

/-- The hex row built for one chunk (blutil.py line 148):
`"".join(["%02x" % x for x in line])`. -/
def hexRow : List Nat → List Char
  | [] => []
  | b :: rest => hexByte b ++ hexRow rest

/-- Concatenation of a list of byte chunks (used to relate the chunks back to
the original file contents). -/
def listConcat : List (List Nat) → List Nat
  | [] => []
  | x :: xs => x ++ listConcat xs

/-- The AT commands issued by `BLDevice.upload` (blutil.py lines 144-150),
carrying their payloads: `+DEL "name" +`, `+FOW "name"`, one `+FWRH "hex"` per
16-byte chunk, and `+FCL`. -/
inductive UploadCmd where
  | del (name : List Char)
  | fow (name : List Char)
  | fwrh (hexText : List Char)
  | fcl
  deriving DecidableEq

/-- The command trace of `BLDevice.upload` for a file with contents `content`
uploaded under device name `name` (blutil.py lines 135-151): delete, then
file-open-for-write, then one hex write per 16-byte chunk, then close. -/
def uploadCmds (name : List Char) (content : List Nat) : List UploadCmd :=
  UploadCmd.del name :: UploadCmd.fow name ::
    ((chunks content 16).map (fun c => UploadCmd.fwrh (hexRow c)) ++ [UploadCmd.fcl])

/-- The ASCII bytes of a string literal. -/
def bytesOf (s : String) : List Nat :=
  s.data.map Char.toNat

/-- Messages printed by `BLDevice.run` after the bounded 1024-byte direct read
(blutil.py lines 158-170). -/
inductive RunEvent where
  | output (payload : List Nat)
  | completed
  | errorOut (code : List Nat)
  | immediate (payload : List Nat)
  | noOutput
  | decodeFail (raw : List Nat)
  deriving DecidableEq

/-- The sequence of messages `BLDevice.run` prints for the bytes `output`
returned by `self.port.read(1024)` after the `+RUN` command (lines 158-170):

* empty read → "No immediate output, program probably running...";
* `len(output) >= 3 and output[-3:] == b'00\r'` → when more than the bare
  terminator arrived, print `"Output:\n" + output[:-3].decode()`, then print
  "Program completed successfully.";
* `len(output) > 4 and output[0:4] == b'\n01\t'` → print the resolved error
  for code `str(output[4:].decode())[:-1]`;
* any other bytes different from the literal `b'\n00'` → print
  `"Immediate output:\n" + output.decode('utf-8')`;
* exactly `b'\n00'` → print nothing (the special ignore case).

`decodeFail` stands for Python's `UnicodeDecodeError` on non-ASCII payloads. -/
def runEvents (output : List Nat) : List RunEvent :=
  if output.length = 0 then [RunEvent.noOutput]
  else if 3 ≤ output.length ∧ lastN output 3 = succTerm then
    (if 3 < output.length then
      (if asciiOnly (dropLastN output 3) then [RunEvent.output (dropLastN output 3)]
       else [RunEvent.decodeFail output])
     else []) ++ [RunEvent.completed]
  else if 4 < output.length ∧ output.take 4 = errMarker then
    (if asciiOnly (output.drop 4) then [RunEvent.errorOut (dropLastN (output.drop 4) 1)]
     else [RunEvent.decodeFail output])
  else if output ≠ [10, 48, 48] then
    (if asciiOnly output then [RunEvent.immediate output]
     else [RunEvent.decodeFail output])
  else []

/-- The characters removed by `get_devicename`'s `re.sub(r'[:*?"<>|]', "", ·)`
(blutil.py line 238). -/
def reservedChars : List Char := [':', '*', '?', '"', '<', '>', '|']

/-- True when `c` is one of the reserved characters stripped from device names. -/
def isReserved (c : Char) : Bool :=
  reservedChars.contains c

/-- Python `os.path.split(p)[1]` on a POSIX path: the part after the last `/`. -/
def osSplitTail (p : List Char) : List Char :=
  (p.reverse.takeWhile (fun c => c ≠ '/')).reverse

/-- Python `str.split(sep)` for a one-character separator: the list of
(possibly empty) segments between occurrences of `sep`; never empty. -/
def pySplit (sep : Char) : List Char → List (List Char)
  | [] => [[]]
  | c :: rest =>
    if c = sep then [] :: pySplit sep rest
    else
      match pySplit sep rest with
      | [] => [[c]]
      | g :: gs => (c :: g) :: gs

/-- `get_devicename` (blutil.py lines 234-238): take the path's base name
(`os.path.split(filepath)[1]`), keep the part before the first dot
(`filename.split('.')[0]`), strip the reserved characters
(`re.sub(r'[:*?"<>|]', "", ·)`), and cap the result at 24 characters. -/
def get_devicename (filepath : List Char) : List Char :=
  (((pySplit '.' (osSplitTail filepath)).headD []).filter (fun c => ! isReserved c)).take 24

/-- Base name with only its final extension removed, following the wording of
claim C5 ("everything before the final extension is kept"); compare with the
`split('.')[0]` truncation the source actually performs. -/
def stripLastExt (l : List Char) : List Char :=
  if l.contains '.' then ((l.reverse.dropWhile (fun c => c ≠ '.')).drop 1).reverse
  else l

/-- The device name as described by claim C5: base name minus its final
extension, reserved characters stripped, capped at 24 characters. -/
def devicenameClaimed (filepath : List Char) : List Char :=
  ((stripLastExt (osSplitTail filepath)).filter (fun c => ! isReserved c)).take 24

/-- Code points matched by Python's `\s` for `str` patterns (the same set as
`str.isspace`): ASCII whitespace, the separators `\x1c`-`\x1f`, and the
Unicode whitespace characters. -/
def pyWsCodes : List Nat :=
  [9, 10, 11, 12, 13, 28, 29, 30, 31, 32, 133, 160, 5760,
   8192, 8193, 8194, 8195, 8196, 8197, 8198, 8199, 8200, 8201, 8202,
   8232, 8233, 8239, 8287, 12288]

/-- True when the regex class `\s` matches `c`.  Note `\s` matches `'\n'`. -/
def isReSpace (c : Char) : Bool :=
  pyWsCodes.contains c.toNat

/-- The literal `#include` (8 characters). -/
def includeLit : List Char := ['#', 'i', 'n', 'c', 'l', 'u', 'd', 'e']

/-- Attempt of the pattern `#include\s+"(.*)"$` at the head of `s` (the head
is assumed to be a `^` position).  Mirrors Python's leftmost-greedy matching:
`\s+` takes the maximal whitespace run (the following `"` is not whitespace,
so no backtracking arises), `.` does not match `'\n'`, and `$` (MULTILINE)
requires the closing quote to sit at a line end — equivalently, the rest of
the line after the opening quote must be non-empty and end with `"`.
Returns the number of characters consumed and the captured group. -/
def matchDirectiveAt (s : List Char) : Option (Nat × List Char) :=
  if includeLit.isPrefixOf s then
    let afterKw := s.drop 8
    let ws := afterKw.takeWhile isReSpace
    let rest := afterKw.drop ws.length
    if ws.length = 0 then none
    else
      match rest with
      | [] => none
      | q :: rest2 =>
        if q = '"' then
          let seg := rest2.takeWhile (fun c => c ≠ '\n')
          if seg.isEmpty then none
          else if seg.getLastD ' ' = '"' then
            some (8 + ws.length + 1 + seg.length, seg.dropLast)
          else none
        else none
  else none

/-- Scan of `re.search` with a MULTILINE `^`-anchored pattern: try the match
at each line-start position, left to right.  `pos` is the absolute offset of
`s` in the document and `atStart` whether that offset is a line start.
Returns `(match.start(), match.end(), match.group(1))`. -/
def scanDirective : Nat → Bool → List Char → Option (Nat × Nat × List Char)
  | pos, atStart, s =>
    match (if atStart then matchDirectiveAt s else none) with
    | some (len, g) => some (pos, pos + len, g)
    | none =>
      match s with
      | [] => none
      | c :: rest => scanDirective (pos + 1) (c == '\n') rest

/-- Search of `re.compile(r'^#include\s+"(.*)"$', re.MULTILINE)` in a
document (blutil.py line 194-195). -/
def findDirective (s : List Char) : Option (Nat × Nat × List Char) :=
  scanDirective 0 true s

/-- Python `os.path.join(dirname, rel)` on POSIX paths (`os.path.abspath`'s
normalisation is environment-dependent and irrelevant to the claims proved
here): an absolute `rel` wins, otherwise the parts are joined with `/`. -/
def joinPath (dirname rel : List Char) : List Char :=
  if rel.headD ' ' = '/' then rel else dirname ++ '/' :: rel

/-- Python `os.path.dirname` on POSIX paths: everything before the last `/`. -/
def dirOf (p : List Char) : List Char :=
  ((p.reverse.dropWhile (fun c => c ≠ '/')).drop 1).reverse

/-- Python `file.replace('#include', "")` (blutil.py line 215): remove every
non-overlapping occurrence of the literal, left to right. -/
def removeIncludeLit (l : List Char) : List Char :=
  match l with
  | [] => []
  | c :: rest =>
    if includeLit.isPrefixOf (c :: rest) then removeIncludeLit (rest.drop 7)
    else c :: removeIncludeLit rest
termination_by l.length
decreasing_by
  · simp only [List.length_drop, List.length_cons]
    omega
  · simp only [List.length_cons]
    omega

/-- Result of `BLDevice.do_include`: the expanded document, a missing-include
error (the `RuntimeError` of blutil.py line 203), or exhausted recursion fuel
(Python would recurse without bound there). -/
inductive IncResult where
  | ok (doc : List Char)
  | missing (path : List Char)
  | outOfFuel
  deriving DecidableEq

/-- `BLDevice.do_include` (blutil.py lines 193-216).  `fs` maps a path to the
contents of the file there, if any; `fuel` bounds the recursion depth.  With
no directive found the document is returned unchanged (line 196-197);
otherwise the referenced file is resolved (missing → error), recursively
expanded from its own directory, spliced over the match surrounded by
newlines (line 209), the whole document is reprocessed from the same base
directory (line 211), and finally every literal `#include` is removed
(line 215). -/
def do_include (fs : List Char → Option (List Char)) (fuel : Nat)
    (dirname file : List Char) : IncResult :=
  match findDirective file with
  | none => IncResult.ok file
  | some (s, e, g) =>
    match fuel with
    | 0 => IncResult.outOfFuel
    | f2 + 1 =>
      let path := joinPath dirname g
      match fs path with
      | none => IncResult.missing path
      | some contents =>
        match do_include fs f2 (dirOf path) contents with
        | IncResult.ok fd =>
          let spliced := file.take s ++ '\n' :: (fd ++ '\n' :: file.drop e)
          match do_include fs f2 dirname spliced with
          | IncResult.ok f3 => IncResult.ok (removeIncludeLit f3)
          | r => r
        | r => r

/-- A line that is an include directive in the words of claim C4: the line
consists solely of the include marker, whitespace, and a double-quoted path. -/
def claimDirectiveLine (line : List Char) : Bool :=
  includeLit.isPrefixOf line &&
    (let r1 := line.drop 8
     let ws := r1.takeWhile isReSpace
     let r2 := r1.drop ws.length
     !ws.isEmpty && !r2.isEmpty && (r2.headD ' ' == '"') &&
       decide (2 ≤ r2.length) && (r2.getLastD ' ' == '"'))

/-- The lines of a document, split at `'\n'`. -/
def splitLines (s : List Char) : List (List Char) :=
  pySplit '\n' s

/-- The document `"#include \n\"a\""` — its first line is `"#include "` and
its second `"\"a\""`, so no single line is an include directive, yet the
regex matches because `\s+` spans the line break. -/
def c4doc : List Char :=
  ['#', 'i', 'n', 'c', 'l', 'u', 'd', 'e', ' ', '\n', '"', 'a', '"']

/-- An empty filesystem: every path is missing. -/
def emptyFs : List Char → Option (List Char) := fun _ => none

/-- Helper: an all-ASCII byte list passes the `asciiOnly` guard. -/
lemma asciiOnly_of_forall {l : List Nat} (h : ∀ b ∈ l, b < 128) : asciiOnly l = true := by
  simp only [asciiOnly, List.all_eq_true, decide_eq_true_eq]
  exact h

/-- Helper: a response ending in the success terminator classifies as
`success` with the trimmed payload, provided it is ASCII. -/
lemma classify_success_of_endsWith {resp : List Nat} (ha : ∀ b ∈ resp, b < 128)
    (ht : endsWith resp succTerm = true) :
    classify resp = Resp.success (pyStrip (dropLastN resp 3)) := by
  simp [classify, ht, asciiOnly_of_forall ha]

/-- C1: for every ASCII byte sequence accumulated by `writecmd`'s response
read that ends in the success terminator `b"00\r"`, the response is classified
as Success and the payload is the sequence minus the three terminator bytes,
trimmed of surrounding whitespace (`str(response, "ascii")[:-3].strip()`,
blutil.py lines 59-60). -/
theorem c1_writecmd_success (resp : List Nat) (ha : ∀ b ∈ resp, b < 128)
    (ht : endsWith resp succTerm = true) :
    classify resp = Resp.success (pyStrip (dropLastN resp 3)) :=
  classify_success_of_endsWith ha ht

/-- Witness for C1 at the concrete response `b" ok 00\r"`: the payload is
`"ok"`, i.e. the bytes before the terminator with surrounding blanks stripped. -/
theorem c1_writecmd_success_witness :
    classify [32, 111, 107, 32, 48, 48, 13] = Resp.success [111, 107] :=
  (c1_writecmd_success [32, 111, 107, 32, 48, 48, 13] (by decide) (by decide)).trans
    (by decide)

/-- C2: for every ASCII response of length greater than 4 that starts with the
error marker `b"\n01\t"` and does not end with the success terminator,
`writecmd` raises the device-error outcome whose code is the text strictly
between the four-byte marker and the final byte
(`str(response[4:].decode())[:-1]`, blutil.py lines 65-67). -/
theorem c2_writecmd_deviceError (resp : List Nat) (ha : ∀ b ∈ resp, b < 128)
    (hlen : 4 < resp.length) (hpre : resp.take 4 = errMarker)
    (ht : endsWith resp succTerm = false) :
    classify resp = Resp.deviceError (dropLastN (resp.drop 4) 1) := by
  have h0 : ¬ resp.length = 0 := by omega
  have hdrop : asciiOnly (resp.drop 4) = true :=
    asciiOnly_of_forall (fun b hb => ha b ((List.drop_sublist 4 resp).subset hb))
  simp [classify, ht, h0, hlen, hpre, hdrop]

/-- Witness for C2 at the concrete response `b"\n01\t1C\r"`: the extracted
error code is `"1C"` (the bytes between the marker and the final `\r`). -/
theorem c2_writecmd_deviceError_witness :
    classify [10, 48, 49, 9, 49, 67, 13] = Resp.deviceError [49, 67] :=
  (c2_writecmd_deviceError [10, 48, 49, 9, 49, 67, 13] (by decide) (by decide)
    (by decide) (by decide)).trans (by decide)

/-- C10: the success-terminator check takes precedence over the error-marker
check.  For every ASCII response that ends with `b"00\r"` — even one that
begins with the error marker `b"\n01\t"` — `writecmd` stops reading at that
point (the loop at lines 57-58 reads no further byte) and classifies the
response as Success; such a reply is never reported as a device error. -/
theorem c10_success_precedence (resp : List Nat) (ha : ∀ b ∈ resp, b < 128)
    (ht : endsWith resp succTerm = true) (hpre : resp.take 4 = errMarker) :
    classify resp = Resp.success (pyStrip (dropLastN resp 3)) ∧
      (∀ c, classify resp ≠ Resp.deviceError c) ∧
      (∀ more, readLoop resp more = resp) := by
  have hs := classify_success_of_endsWith ha ht
  refine ⟨hs, ?_, ?_⟩
  · intro c hc
    rw [hs] at hc
    exact Resp.noConfusion hc
  · intro more
    cases more with
    | nil => rfl
    | cons b rest => simp [readLoop, ht]

/-- C8 counterexample: a device error on `format()`'s first command (the clear
command `Z`, which expects a response) is surfaced as a failure of `format()`
even though the final re-probe would succeed — the first response is the error
reply `b"\n01\t05\r"` while both probes answer the success reply `b"00\r"`.
This refutes the claim that only a failure of the final re-probe can make
`format()` fail. -/
theorem c8_counterexample :
    formatRun [10, 48, 49, 9, 48, 53, 13] [48, 48, 13] [48, 48, 13] =
        some (Resp.deviceError [48, 53]) ∧
      classify [48, 48, 13] = Resp.success [] := by decide

/-- C8 amended: during `format()`, only the factory-reset command `&F 1`
(issued with `expect_response=False`) has no failure avenue; `format()`
succeeds exactly when all three of its response-expecting commands — the clear
command `Z`, the intermediate probe, and the final re-probe — classify as
Success. -/
theorem c8_format_failures (r1 r2 r3 : List Nat) :
    formatRun r1 r2 r3 = none ↔
      ((∃ p, classify r1 = Resp.success p) ∧ (∃ p, classify r2 = Resp.success p) ∧
        (∃ p, classify r3 = Resp.success p)) := by
  constructor
  · intro h
    unfold formatRun at h
    rcases h1 : classify r1 with p1 | _ | _ | _ | _ <;> rw [h1] at h <;>
      try exact Option.noConfusion h
    rcases h2 : classify r2 with p2 | _ | _ | _ | _ <;> rw [h2] at h <;>
      try exact Option.noConfusion h
    rcases h3 : classify r3 with p3 | _ | _ | _ | _ <;> rw [h3] at h <;>
      try exact Option.noConfusion h
    exact ⟨⟨p1, rfl⟩, ⟨p2, rfl⟩, ⟨p3, rfl⟩⟩
  · rintro ⟨⟨p1, h1⟩, ⟨p2, h2⟩, ⟨p3, h3⟩⟩
    unfold formatRun
    rw [h1, h2, h3]

/-- Witness for C10 at the concrete response `b"\n01\t0500\r"`, which begins
with the error marker yet ends with the success terminator: it classifies as
Success (payload `"01\t05"`, the marker's newline being stripped), is not a
device error with code `"05"`, and the reader consumes no further byte. -/
theorem c10_success_precedence_witness :
    classify [10, 48, 49, 9, 48, 53, 48, 48, 13] = Resp.success [48, 49, 9, 48, 53] ∧
      classify [10, 48, 49, 9, 48, 53, 48, 48, 13] ≠ Resp.deviceError [48, 53] ∧
      readLoop [10, 48, 49, 9, 48, 53, 48, 48, 13] [99] = [10, 48, 49, 9, 48, 53, 48, 48, 13] := by
  have h := c10_success_precedence [10, 48, 49, 9, 48, 53, 48, 48, 13]
    (by decide) (by decide) (by decide)
  exact ⟨h.1.trans (by decide), h.2.1 [48, 53], h.2.2 [99]⟩

/-- Helper: unfolding equation of `chunks` for a non-empty input. -/
lemma chunks_cons {l : List Nat} (h : l ≠ []) :
    chunks l 16 = l.take 16 :: chunks (l.drop 16) 16 := by
  conv_lhs => rw [chunks]
  rw [dif_neg]
  simp [h]

/-- Helper: unfolding equation of `chunks` for the empty input. -/
lemma chunks_nil : chunks [] 16 = [] := by
  rw [chunks]
  simp

/-- Helper: induction principle following the recursion of `chunks · 16`,
bounded by an explicit length fuel. -/
lemma chunksRecAux (motive : List Nat → Prop) (hnil : motive [])
    (hstep : ∀ l, l ≠ [] → motive (l.drop 16) → motive l) :
    ∀ (k : Nat) (l : List Nat), l.length ≤ k → motive l := by
  intro k
  induction k with
  | zero =>
    intro l hl
    have hz : l = [] := List.length_eq_zero.mp (Nat.le_zero.mp hl)
    rwa [hz]
  | succ k ih =>
    intro l hl
    by_cases hne : l = []
    · rwa [hne]
    · refine hstep l hne (ih _ ?_)
      rw [List.length_drop]
      have hp : 0 < l.length := List.length_pos.mpr hne
      omega

/-- Helper: induction principle following the recursion of `chunks · 16`. -/
lemma chunksRec (motive : List Nat → Prop) (hnil : motive [])
    (hstep : ∀ l, l ≠ [] → motive (l.drop 16) → motive l) (l : List Nat) : motive l :=
  chunksRecAux motive hnil hstep l.length l le_rfl

/-- Helper: the number of 16-byte chunks of an `N`-byte file is `⌈N/16⌉`. -/
lemma chunks_length (l : List Nat) : (chunks l 16).length = (l.length + 15) / 16 := by
  refine chunksRec (fun l => (chunks l 16).length = (l.length + 15) / 16) ?_ ?_ l
  · show (chunks [] 16).length = (List.length [] + 15) / 16
    rw [chunks_nil]
    rfl
  · intro l hne ih
    have ih2 : (chunks (l.drop 16) 16).length = ((l.drop 16).length + 15) / 16 := ih
    show (chunks l 16).length = (l.length + 15) / 16
    rw [chunks_cons hne, List.length_cons, ih2, List.length_drop]
    have hp : 0 < l.length := List.length_pos.mpr hne
    omega

/-- Helper: every chunk produced by `chunks · 16` has between 1 and 16 bytes. -/
lemma chunks_mem (l : List Nat) : ∀ c ∈ chunks l 16, c.length ≤ 16 ∧ 1 ≤ c.length := by
  refine chunksRec (fun l => ∀ c ∈ chunks l 16, c.length ≤ 16 ∧ 1 ≤ c.length) ?_ ?_ l
  · intro c hc
    rw [chunks_nil] at hc
    simp at hc
  · intro l hne ih
    have ih2 : ∀ c ∈ chunks (l.drop 16) 16, c.length ≤ 16 ∧ 1 ≤ c.length := ih
    intro c hc
    rw [chunks_cons hne] at hc
    rcases List.mem_cons.mp hc with hhead | htail
    · subst hhead
      rw [List.length_take]
      have hp : 0 < l.length := List.length_pos.mpr hne
      omega
    · exact ih2 c htail

/-- Helper: concatenating the chunks gives back the original contents. -/
lemma chunks_concat (l : List Nat) : listConcat (chunks l 16) = l := by
  refine chunksRec (fun l => listConcat (chunks l 16) = l) ?_ ?_ l
  · show listConcat (chunks [] 16) = []
    rw [chunks_nil]
    rfl
  · intro l hne ih
    have ih2 : listConcat (chunks (l.drop 16) 16) = l.drop 16 := ih
    show listConcat (chunks l 16) = l
    rw [chunks_cons hne]
    simp only [listConcat, ih2]
    exact List.take_append_drop 16 l

/-- Helper: the hex text of a chunk has exactly two characters per byte. -/
lemma hexRow_length (c : List Nat) : (hexRow c).length = 2 * c.length := by
  induction c with
  | nil => rfl
  | cons b rest ih =>
    simp only [hexRow, hexByte, List.length_append, List.length_cons, ih, List.length_nil]
    omega

/-- C3: for a local artifact of `N` bytes, `upload` issues exactly one delete
command, then one file-open command, then exactly `⌈N/16⌉` write-chunk
commands — each carrying the hex encoding of a chunk of at most 16 bytes, the
hex text twice as long as the chunk — then one close command last; the chunks
concatenate back to the file contents, and a zero-length file issues delete,
create and close with zero write-chunk commands. -/
theorem c3_upload_trace (name : List Char) (content : List Nat) :
    uploadCmds name content =
      UploadCmd.del name :: UploadCmd.fow name ::
        ((chunks content 16).map (fun c => UploadCmd.fwrh (hexRow c)) ++ [UploadCmd.fcl]) ∧
    (chunks content 16).length = (content.length + 15) / 16 ∧
    ((chunks content 16).all
      (fun c => decide ((hexRow c).length = 2 * c.length ∧ c.length ≤ 16)) = true) ∧
    listConcat (chunks content 16) = content ∧
    uploadCmds name [] = [UploadCmd.del name, UploadCmd.fow name, UploadCmd.fcl] := by
  have hnil : chunks ([] : List Nat) 16 = [] := chunks_nil
  refine ⟨rfl, chunks_length content, ?_, chunks_concat content, ?_⟩
  · exact List.all_eq_true.mpr
      (fun c hc => decide_eq_true ⟨hexRow_length c, (chunks_mem content c hc).1⟩)
  · simp [uploadCmds, hnil]

/-- C7: when the bounded direct read after the `+RUN` command returns exactly
the bytes `"hello\r\n00\r"`, `run` prints the program output — whose text is
`"hello"` up to the trailing line break `"\r\n"` — followed by the success
message "Program completed successfully.". -/
theorem c7_run_hello :
    runEvents (bytesOf "hello\r\n00\r") =
        [RunEvent.output (bytesOf "hello\r\n"), RunEvent.completed] ∧
      pyStrip (bytesOf "hello\r\n") = bytesOf "hello" := by decide

/-- C9 counterexample: there is no two-byte read for which `run` stays silent —
every two-byte sequence falls through to the immediate-output branch (or to a
decode failure), because the special ignore case compares against the literal
`b'\n00'`, which is three bytes long.  This refutes the claim that a literal
two-byte sequence is treated as the ignore case. -/
theorem c9_counterexample :
    ¬ ∃ s : List Nat, s.length = 2 ∧ (∀ b ∈ s, b < 256) ∧ runEvents s = [] := by
  rintro ⟨s, hlen, hb, hrun⟩
  match s, hlen with
  | [a, b], _ =>
    have hne : ([a, b] : List Nat) ≠ [10, 48, 48] := by
      intro h
      have hl3 := congrArg List.length h
      simp at hl3
    rw [runEvents] at hrun
    rw [if_neg (by simp : ¬([a, b] : List Nat).length = 0)] at hrun
    rw [if_neg (by simp : ¬(3 ≤ ([a, b] : List Nat).length ∧
      lastN ([a, b] : List Nat) 3 = succTerm))] at hrun
    rw [if_neg (by simp : ¬(4 < ([a, b] : List Nat).length ∧
      ([a, b] : List Nat).take 4 = errMarker))] at hrun
    rw [if_pos hne] at hrun
    split at hrun <;> simp at hrun

/-- C9 amended: the special ignore case of `run`'s immediate-output path is the
literal three-byte sequence `b'\n00'` (newline, `'0'`, `'0'`): when the bounded
direct read returns exactly those bytes, `run` prints neither output, an
error, nor an immediate-output message. -/
theorem c9_ignore_case : runEvents [10, 48, 48] = [] := by decide

/-- Helper: `pySplit` never returns an empty list of segments. -/
lemma pySplit_ne_nil (sep : Char) (l : List Char) : pySplit sep l ≠ [] := by
  cases l with
  | nil => simp [pySplit]
  | cons c rest =>
    by_cases h : c = sep
    · simp [pySplit, h]
    · rw [pySplit, if_neg h]
      rcases hps : pySplit sep rest with _ | ⟨g, gs⟩ <;> simp

/-- Helper: the first segment of `str.split(sep)` is the prefix before the
first occurrence of `sep`. -/
lemma pySplit_headD (sep : Char) (l : List Char) :
    (pySplit sep l).headD [] = l.takeWhile (fun c => c ≠ sep) := by
  induction l with
  | nil => rfl
  | cons c rest ih =>
    by_cases h : c = sep
    · subst h
      rw [pySplit, if_pos rfl]
      simp [List.takeWhile_cons]
    · rw [pySplit, if_neg h]
      rcases hps : pySplit sep rest with _ | ⟨g, gs⟩
      · exact absurd hps (pySplit_ne_nil sep rest)
      · rw [hps] at ih
        simp only [List.headD] at ih
        simp [List.takeWhile_cons, h, ih]

/-- Helper: `get_devicename` in closed form — base name, cut at the first dot,
reserved characters removed, capped at 24. -/
lemma get_devicename_eq (p : List Char) :
    get_devicename p =
      (((osSplitTail p).takeWhile (fun c => c ≠ '.')).filter
        (fun c => ! isReserved c)).take 24 := by
  rw [get_devicename, pySplit_headD]

/-- C5 counterexample: for the path `"foo.bar.uwc"` the source computes the
name `"foo"` (everything before the *first* dot), not `"foo.bar"` (everything
before the final extension) as the claim states. -/
theorem c5_counterexample :
    get_devicename ['f', 'o', 'o', '.', 'b', 'a', 'r', '.', 'u', 'w', 'c'] =
        ['f', 'o', 'o'] ∧
      devicenameClaimed ['f', 'o', 'o', '.', 'b', 'a', 'r', '.', 'u', 'w', 'c'] =
        ['f', 'o', 'o', '.', 'b', 'a', 'r'] ∧
      get_devicename ['f', 'o', 'o', '.', 'b', 'a', 'r', '.', 'u', 'w', 'c'] ≠
        devicenameClaimed ['f', 'o', 'o', '.', 'b', 'a', 'r', '.', 'u', 'w', 'c'] := by
  decide

/-- C5 amended: the RemoteFile name computed by `get_devicename` is derived
from the path's base name truncated at the first dot — for a base name
containing dots, everything from the first dot on is dropped — then the
reserved characters are stripped and the result is capped at 24 characters. -/
theorem c5_first_dot_truncation (filepath : List Char) :
    get_devicename filepath =
      (((osSplitTail filepath).takeWhile (fun c => c ≠ '.')).filter
        (fun c => ! isReserved c)).take 24 :=
  get_devicename_eq filepath

/-- C6: the output of `get_devicename` never exceeds 24 characters, contains
no reserved character (colon, asterisk, question mark, double quote, angle
brackets, vertical bar), and the normalisation is idempotent. -/
theorem c6_devicename_normalized (p : List Char) :
    (get_devicename p).length ≤ 24 ∧
      (get_devicename p).all (fun c => ! isReserved c) = true ∧
      get_devicename (get_devicename p) = get_devicename p := by
  have hlen : ∀ q : List Char, (get_devicename q).length ≤ 24 := by
    intro q
    rw [get_devicename_eq]
    exact List.length_take_le 24 _
  have hmem : ∀ c ∈ get_devicename p, (c ≠ '/' ∧ c ≠ '.') ∧ (! isReserved c) = true := by
    intro c hc
    rw [get_devicename_eq] at hc
    have hc2 := (List.take_sublist 24 _).subset hc
    have hres := List.of_mem_filter hc2
    have hc3 := List.mem_of_mem_filter hc2
    have hdot := List.mem_takeWhile_imp hc3
    have hc4 : c ∈ osSplitTail p := (List.takeWhile_sublist _).subset hc3
    have hc5 : c ∈ p.reverse.takeWhile (fun c => c ≠ '/') := List.mem_reverse.mp hc4
    have hslash := List.mem_takeWhile_imp hc5
    exact ⟨⟨of_decide_eq_true hslash, of_decide_eq_true hdot⟩, hres⟩
  refine ⟨hlen p, List.all_eq_true.mpr (fun c hc => (hmem c hc).2), ?_⟩
  have h1 : osSplitTail (get_devicename p) = get_devicename p := by
    rw [osSplitTail, List.takeWhile_eq_self_iff.mpr, List.reverse_reverse]
    intro c hc
    exact decide_eq_true (hmem c (List.mem_reverse.mp hc)).1.1
  have h2 : (get_devicename p).takeWhile (fun c => c ≠ '.') = get_devicename p :=
    List.takeWhile_eq_self_iff.mpr (fun c hc => decide_eq_true (hmem c hc).1.2)
  have h3 : (get_devicename p).filter (fun c => ! isReserved c) = get_devicename p :=
    List.filter_eq_self.mpr (fun c hc => (hmem c hc).2)
  have h4 : (get_devicename p).take 24 = get_devicename p :=
    List.take_of_length_le (hlen p)
  rw [get_devicename_eq, h1, h2, h3, h4]

/-- C4 counterexample: the document `c4doc` contains no include-directive
*line* (in the claim's sense), yet `do_include` does not return it unchanged —
the regex's `\s+` spans the line break, the match is found, and the missing
referenced file raises an error.  This refutes the claim that every document
with no directive line is returned byte-identical. -/
theorem c4_counterexample :
    (splitLines c4doc).all (fun l => ! claimDirectiveLine l) = true ∧
      do_include emptyFs 5 ['d'] c4doc ≠ IncResult.ok c4doc := by decide

/-- C4 amended: for every source document in which the include pattern
`^#include\s+"(.*)"$` (MULTILINE) finds no match, `do_include` returns the
document byte-identical, with no other transformation — in particular no
stripping of literal `#include` text. -/
theorem c4_no_directive_identity (fs : List Char → Option (List Char)) (fuel : Nat)
    (dirname file : List Char) (h : findDirective file = none) :
    do_include fs fuel dirname file = IncResult.ok file := by
  unfold do_include
  rw [h]

/-- Witness for the amended C4 on a document whose only `#include` text is a
literal inside a line (not a directive): the pattern finds no match and the
document — literal included — comes back byte-identical. -/
theorem c4_no_directive_identity_witness :
    findDirective ['r', 'e', 'm', ' ', '#', 'i', 'n', 'c', 'l', 'u', 'd', 'e', ' ', 'x',
        '\n', 'P'] = none ∧
      do_include emptyFs 3 ['d']
          ['r', 'e', 'm', ' ', '#', 'i', 'n', 'c', 'l', 'u', 'd', 'e', ' ', 'x', '\n', 'P'] =
        IncResult.ok
          ['r', 'e', 'm', ' ', '#', 'i', 'n', 'c', 'l', 'u', 'd', 'e', ' ', 'x', '\n', 'P'] :=
  ⟨by decide,
    c4_no_directive_identity emptyFs 3 ['d']
      ['r', 'e', 'm', ' ', '#', 'i', 'n', 'c', 'l', 'u', 'd', 'e', ' ', 'x', '\n', 'P']
      (by decide)⟩
